import Mathlib

/-!
Shallow embedding of the fleet-management lifecycle core.

The embedding follows the storage layer in `src/unnamed/part_008`
(classes `MemStorage` and `DatabaseStorage`; the application deploys
`DatabaseStorage`, see the final line `storage = new DatabaseStorage()`)
and the route handlers in `src/server/auth.ts`.

Modelling conventions:
* timestamps and dates are `Nat` (milliseconds / day ordinals); a JS
  `Date` value is always truthy, so a present non-null date field is
  modelled as `some (some t)`;
* JS numbers used as odometer readings are `Nat`, where the JS
  truthiness of `x` is `x ≠ 0` (this matters for `endOdometer || mileage`);
* real-valued fields (`cost`, `fuelConsumed`) are `ℚ`; they are inert
  data in every operation modelled here;
* a `Partial<T>` patch object distinguishes an absent key (`none`) from a
  present key (`some v`); for nullable columns the present value is again
  an `Option`;
* SQL `UPDATE ... WHERE id = ?` / `Map.set` are modelled as a map over
  the row list replacing the rows whose id matches;
* the typed error kinds are the taxonomy the API layer exposes
  (`Vehicle not found` ↦ 404 not-found, `Vehicle not available` ↦ 422
  conflict, dependent-record delete rejections ↦ conflict).
-/

namespace Fleet

/-- Vehicle status enum of the `vehicles` table (`src/unnamed/part_000`). -/
inductive VStatus where
  | available
  | maintenance
  | in_use
  | out_of_service
deriving DecidableEq

/-- Trip status enum of the `trips` table. -/
inductive TripStatus where
  | planned
  | in_progress
  | completed
  | cancelled
deriving DecidableEq

/-- Maintenance status enum of the `maintenance` table. -/
inductive MaintStatus where
  | pending
  | in_progress
  | completed
deriving DecidableEq

/-- Maintenance type enum of the `maintenance` table. -/
inductive MaintType where
  | scheduled
  | unscheduled
  | repair
deriving DecidableEq

/-- Booking status enum of the `bookings` table. -/
inductive BookingStatus where
  | pending
  | approved
  | declined
  | cancelled
  | completed
deriving DecidableEq

/-- A row of the `vehicles` table. -/
structure Vehicle where
  id : Nat
  make : String := ""
  model : String := ""
  year : Nat := 2020
  registrationNumber : String := ""
  vin : Option String := none
  color : Option String := none
  status : VStatus := .available
  mileage : Nat := 0
  fuelType : Option String := none
  assignedToId : Option Nat := none
  purchaseDate : Option Nat := none
  notes : Option String := none
deriving DecidableEq

/-- A row of the `trips` table. -/
structure Trip where
  id : Nat
  vehicleId : Nat
  driverId : Nat
  startTime : Nat
  endTime : Option Nat := none
  startOdometer : Nat
  endOdometer : Option Nat := none
  fuelConsumed : Option ℚ := none
  purpose : Option String := none
  status : TripStatus := .planned
  notes : Option String := none
deriving DecidableEq

/-- A row of the `maintenance` table. -/
structure Maintenance where
  id : Nat
  vehicleId : Nat
  type : MaintType := .scheduled
  description : String := ""
  date : Nat
  cost : Option ℚ := none
  odometer : Option Nat := none
  status : MaintStatus := .pending
  notes : Option String := none
  completedAt : Option Nat := none
deriving DecidableEq

/-- A row of the `bookings` table. -/
structure Booking where
  id : Nat
  vehicleId : Nat
  userId : Nat
  startTime : Nat
  endTime : Nat
  purpose : Option String := none
  status : BookingStatus := .pending
  createdAt : Nat := 0
deriving DecidableEq

/-- `InsertTrip`: a trip-creation input (schema with `id` omitted). -/
structure InsertTrip where
  vehicleId : Nat
  driverId : Nat
  startTime : Nat
  endTime : Option Nat := none
  startOdometer : Nat
  endOdometer : Option Nat := none
  fuelConsumed : Option ℚ := none
  purpose : Option String := none
  status : TripStatus := .planned
  notes : Option String := none
deriving DecidableEq

/-- `InsertMaintenance`: a maintenance-creation input (`id` omitted). -/
structure InsertMaintenance where
  vehicleId : Nat
  type : MaintType := .scheduled
  description : String := ""
  date : Nat
  cost : Option ℚ := none
  odometer : Option Nat := none
  status : MaintStatus := .pending
  notes : Option String := none
  completedAt : Option Nat := none
deriving DecidableEq

/-- `InsertBooking`: a booking-creation input (`id`, `createdAt` omitted). -/
structure InsertBooking where
  vehicleId : Nat
  userId : Nat
  startTime : Nat
  endTime : Nat
  purpose : Option String := none
  status : BookingStatus := .pending
deriving DecidableEq

/-- `Partial<Trip>` as parsed by `insertTripSchema.partial()`: each field is
either absent (`none`) or present; nullable columns may be present as null. -/
structure TripPatch where
  vehicleId : Option Nat := none
  driverId : Option Nat := none
  startTime : Option Nat := none
  endTime : Option (Option Nat) := none
  startOdometer : Option Nat := none
  endOdometer : Option (Option Nat) := none
  fuelConsumed : Option (Option ℚ) := none
  purpose : Option (Option String) := none
  status : Option TripStatus := none
  notes : Option (Option String) := none
deriving DecidableEq

/-- `Partial<Maintenance>` as parsed by `insertMaintenanceSchema.partial()`. -/
structure MaintPatch where
  vehicleId : Option Nat := none
  type : Option MaintType := none
  description : Option String := none
  date : Option Nat := none
  cost : Option (Option ℚ) := none
  odometer : Option (Option Nat) := none
  status : Option MaintStatus := none
  notes : Option (Option String) := none
  completedAt : Option (Option Nat) := none
deriving DecidableEq

/-- `Partial<Booking>` as parsed by `insertBookingSchema.partial()`. -/
structure BookingPatch where
  vehicleId : Option Nat := none
  userId : Option Nat := none
  startTime : Option Nat := none
  endTime : Option Nat := none
  purpose : Option (Option String) := none
  status : Option BookingStatus := none
deriving DecidableEq

/-- JS spread-merge `{...trip, ...patch}` / SQL `UPDATE trips SET patch`. -/
def Trip.apply (t : Trip) (p : TripPatch) : Trip :=
  { id := t.id
    vehicleId := p.vehicleId.getD t.vehicleId
    driverId := p.driverId.getD t.driverId
    startTime := p.startTime.getD t.startTime
    endTime := p.endTime.getD t.endTime
    startOdometer := p.startOdometer.getD t.startOdometer
    endOdometer := p.endOdometer.getD t.endOdometer
    fuelConsumed := p.fuelConsumed.getD t.fuelConsumed
    purpose := p.purpose.getD t.purpose
    status := p.status.getD t.status
    notes := p.notes.getD t.notes }

/-- JS spread-merge `{...maintenance, ...patch}`. -/
def Maintenance.apply (m : Maintenance) (p : MaintPatch) : Maintenance :=
  { id := m.id
    vehicleId := p.vehicleId.getD m.vehicleId
    type := p.type.getD m.type
    description := p.description.getD m.description
    date := p.date.getD m.date
    cost := p.cost.getD m.cost
    odometer := p.odometer.getD m.odometer
    status := p.status.getD m.status
    notes := p.notes.getD m.notes
    completedAt := p.completedAt.getD m.completedAt }

/-- JS spread-merge `{...booking, ...patch}` (`createdAt` is never patched:
`insertBookingSchema` omits it). -/
def Booking.apply (b : Booking) (p : BookingPatch) : Booking :=
  { id := b.id
    vehicleId := p.vehicleId.getD b.vehicleId
    userId := p.userId.getD b.userId
    startTime := p.startTime.getD b.startTime
    endTime := p.endTime.getD b.endTime
    purpose := p.purpose.getD b.purpose
    status := p.status.getD b.status
    createdAt := b.createdAt }

/-- The error taxonomy surfaced by the API layer (`src/server/auth.ts`):
validation failures map to 400, missing references to 404, state conflicts
(non-available vehicle, blocking dependents) to conflict responses, and
storage-layer failures to 500. -/
inductive FleetError where
  | validationError
  | notFoundError
  | conflictError
  | storageError
deriving DecidableEq

/-- The state of the backing store: the four entity tables plus the serial
id counters (`serial` primary keys / `idCounter` fields). -/
structure StoreState where
  vehicles : List Vehicle := []
  trips : List Trip := []
  maintenances : List Maintenance := []
  bookings : List Booking := []
  nextTripId : Nat := 1
  nextMaintenanceId : Nat := 1
  nextBookingId : Nat := 1
deriving DecidableEq

/-- `SELECT * FROM vehicles WHERE id = ?` / `vehicles.get(id)`. -/
def getVehicle (s : StoreState) (id : Nat) : Option Vehicle :=
  s.vehicles.find? (fun v => v.id == id)

/-- `SELECT * FROM trips WHERE id = ?` / `trips.get(id)`. -/
def getTrip (s : StoreState) (id : Nat) : Option Trip :=
  s.trips.find? (fun t => t.id == id)

/-- `SELECT * FROM maintenance WHERE id = ?`. -/
def getMaintenance (s : StoreState) (id : Nat) : Option Maintenance :=
  s.maintenances.find? (fun m => m.id == id)

/-- `SELECT * FROM bookings WHERE id = ?`. -/
def getBooking (s : StoreState) (id : Nat) : Option Booking :=
  s.bookings.find? (fun b => b.id == id)

/-- `UPDATE vehicles SET status = st WHERE id = ?`. -/
def setVehicleStatus (s : StoreState) (id : Nat) (st : VStatus) : StoreState :=
  let upd := fun v : Vehicle => if v.id == id then { v with status := st } else v
  { s with vehicles := s.vehicles.map upd }

/-- `UPDATE vehicles SET status = st, mileage = mi WHERE id = ?`. -/
def setVehicleStatusMileage (s : StoreState) (id : Nat) (st : VStatus) (mi : Nat) :
    StoreState :=
  let upd := fun v : Vehicle =>
    if v.id == id then { v with status := st, mileage := mi } else v
  { s with vehicles := s.vehicles.map upd }

/-- JS truthiness of a present, non-null date field (a `Date` object is
always truthy). -/
def dateTruthy (x : Option (Option Nat)) : Bool :=
  match x with
  | some (some _) => true
  | _ => false

/-- JS `patchField || fallback` for a numeric field: the fallback is used
when the field is absent, null, or `0` (zero is falsy). -/
def numOr (x : Option (Option Nat)) (d : Nat) : Nat :=
  match x with
  | some (some v) => if v == 0 then d else v
  | _ => d

/-- The trip row built by `INSERT INTO trips` from a creation input. -/
def InsertTrip.toRow (td : InsertTrip) (id : Nat) : Trip :=
  { id := id
    vehicleId := td.vehicleId
    driverId := td.driverId
    startTime := td.startTime
    endTime := td.endTime
    startOdometer := td.startOdometer
    endOdometer := td.endOdometer
    fuelConsumed := td.fuelConsumed
    purpose := td.purpose
    status := td.status
    notes := td.notes }

/-- The maintenance row built by `INSERT INTO maintenance`. -/
def InsertMaintenance.toRow (md : InsertMaintenance) (id : Nat) : Maintenance :=
  { id := id
    vehicleId := md.vehicleId
    type := md.type
    description := md.description
    date := md.date
    cost := md.cost
    odometer := md.odometer
    status := md.status
    notes := md.notes
    completedAt := md.completedAt }

/-- The booking row built by `INSERT INTO bookings`; `createdAt` is the
server-assigned creation timestamp (`defaultNow()` / `new Date()`). -/
def InsertBooking.toRow (bd : InsertBooking) (id now : Nat) : Booking :=
  { id := id
    vehicleId := bd.vehicleId
    userId := bd.userId
    startTime := bd.startTime
    endTime := bd.endTime
    purpose := bd.purpose
    status := bd.status
    createdAt := now }

/-- `DatabaseStorage.createTrip` (`src/unnamed/part_008` lines 641-691):
inside one transaction, insert the trip row; then, only when the new
trip's status is `in_progress`, read the vehicle and, if its status is
`available`, set it to `in_use`. There is no conflict check: with the
vehicle in any other status the second write is skipped and the insert is
still committed. -/
def dbCreateTrip (s : StoreState) (td : InsertTrip) : Trip × StoreState :=
  let t := td.toRow s.nextTripId
  let s1 : StoreState := { s with trips := s.trips ++ [t], nextTripId := s.nextTripId + 1 }
  if td.status == .in_progress then
    match getVehicle s1 td.vehicleId with
    | some v =>
      if v.status == .available then (t, setVehicleStatus s1 td.vehicleId .in_use)
      else (t, s1)
    | none => (t, s1)
  else (t, s1)

/-- `MemStorage.createTrip` (`src/unnamed/part_008` lines 255-267): insert
the trip and flip an `available` vehicle to `in_use` unconditionally —
the new trip's own status is never consulted. -/
def memCreateTrip (s : StoreState) (td : InsertTrip) : Trip × StoreState :=
  let t := td.toRow s.nextTripId
  let s1 : StoreState := { s with trips := s.trips ++ [t], nextTripId := s.nextTripId + 1 }
  match getVehicle s1 td.vehicleId with
  | some v =>
    if v.status == .available then (t, setVehicleStatus s1 td.vehicleId .in_use)
    else (t, s1)
  | none => (t, s1)

/-- `DatabaseStorage.updateTrip` (`src/unnamed/part_008` lines 693-782):
merge the patch into the trip row; when the patch has `status: completed`
and a (truthy) `endTime`, re-read the trip, read its vehicle and, if the
vehicle is `in_use`, set it to `available` with
`mileage = patch.endOdometer || vehicle.mileage`. Returns `none`
(JS `undefined`) when the trip id matches no row. -/
def dbUpdateTrip (s : StoreState) (id : Nat) (p : TripPatch) :
    Option (Trip × StoreState) :=
  match getTrip s id with
  | none => none
  | some t0 =>
    let t1 := t0.apply p
    let updT := fun t : Trip => if t.id == id then t.apply p else t
    let s1 : StoreState := { s with trips := s.trips.map updT }
    if p.status == some .completed && dateTruthy p.endTime then
      match getTrip s1 id with
      | some tr =>
        match getVehicle s1 tr.vehicleId with
        | some v =>
          if v.status == .in_use then
            some (t1, setVehicleStatusMileage s1 tr.vehicleId .available (numOr p.endOdometer v.mileage))
          else some (t1, s1)
        | none => some (t1, s1)
      | none => some (t1, s1)
    else some (t1, s1)

/-- `DatabaseStorage.createMaintenance` (`src/unnamed/part_008` lines
526-550): inside one transaction, insert the record; when its initial
status is not `completed`, read the vehicle and, if `available`, set it
to `maintenance`. -/
def dbCreateMaintenance (s : StoreState) (md : InsertMaintenance) :
    Maintenance × StoreState :=
  let m := md.toRow s.nextMaintenanceId
  let s1 : StoreState := { s with maintenances := s.maintenances ++ [m], nextMaintenanceId := s.nextMaintenanceId + 1 }
  if md.status != .completed then
    match getVehicle s1 md.vehicleId with
    | some v =>
      if v.status == .available then (m, setVehicleStatus s1 md.vehicleId .maintenance)
      else (m, s1)
    | none => (m, s1)
  else (m, s1)

/-- `MemStorage.createMaintenance` (`src/unnamed/part_008` lines 203-215):
insert the record and flip an `available` vehicle to `maintenance`
unconditionally — the record's own initial status is never consulted. -/
def memCreateMaintenance (s : StoreState) (md : InsertMaintenance) :
    Maintenance × StoreState :=
  let m := md.toRow s.nextMaintenanceId
  let s1 : StoreState := { s with maintenances := s.maintenances ++ [m], nextMaintenanceId := s.nextMaintenanceId + 1 }
  match getVehicle s1 md.vehicleId with
  | some v =>
    if v.status == .available then (m, setVehicleStatus s1 md.vehicleId .maintenance)
    else (m, s1)
  | none => (m, s1)

/-- `DatabaseStorage.updateMaintenance` (`src/unnamed/part_008` lines
552-608): merge the patch; when the patch has `status: completed` (no
`completedAt` condition in this implementation), re-read the record, read
its vehicle and, if the vehicle is in `maintenance`, set it back to
`available`. Mileage is never touched. -/
def dbUpdateMaintenance (s : StoreState) (id : Nat) (p : MaintPatch) :
    Option (Maintenance × StoreState) :=
  match getMaintenance s id with
  | none => none
  | some m0 =>
    let m1 := m0.apply p
    let updM := fun m : Maintenance => if m.id == id then m.apply p else m
    let s1 : StoreState := { s with maintenances := s.maintenances.map updM }
    if p.status == some .completed then
      match getMaintenance s1 id with
      | some mr =>
        match getVehicle s1 mr.vehicleId with
        | some v =>
          if v.status == .maintenance then
            some (m1, setVehicleStatus s1 mr.vehicleId .available)
          else some (m1, s1)
        | none => some (m1, s1)
      | none => some (m1, s1)
    else some (m1, s1)

/-- `DatabaseStorage.createBooking` (`src/unnamed/part_008` lines 815-878)
classified as by the route (`src/server/auth.ts` lines 543-571): a missing
vehicle throws `Vehicle not found` (404, not-found); a vehicle whose
status is not `available` throws `Vehicle not available (status: ...)`
(422, conflict); both throws happen before the insert, so no booking row
is written. On success the booking is inserted with a server-assigned
`createdAt` of `now`. -/
def dbCreateBooking (now : Nat) (s : StoreState) (bd : InsertBooking) :
    Except FleetError (Booking × StoreState) :=
  match getVehicle s bd.vehicleId with
  | none => .error .notFoundError
  | some v =>
    if v.status != .available then .error .conflictError
    else
      let b := bd.toRow s.nextBookingId now
      .ok (b, { s with bookings := s.bookings ++ [b], nextBookingId := s.nextBookingId + 1 })

/-- The store state left behind by `createBooking`: unchanged when the
call throws (the throws precede the insert). -/
def dbCreateBookingPersisted (now : Nat) (s : StoreState) (bd : InsertBooking) :
    StoreState :=
  match dbCreateBooking now s bd with
  | .ok r => r.2
  | .error _ => s

/-- `DatabaseStorage.updateBooking` (`src/unnamed/part_008` lines 880-935):
a blind partial merge — no status state machine, no vehicle check.
Returns `none` when the booking id matches no row. -/
def dbUpdateBooking (s : StoreState) (id : Nat) (p : BookingPatch) :
    Option (Booking × StoreState) :=
  match getBooking s id with
  | none => none
  | some b0 =>
    let updB := fun b : Booking => if b.id == id then b.apply p else b
    some (b0.apply p, { s with bookings := s.bookings.map updB })

/-- `listMaintenanceForVehicle`: rows referencing the vehicle. -/
def listMaintenanceForVehicle (s : StoreState) (vid : Nat) : List Maintenance :=
  s.maintenances.filter (fun m => m.vehicleId == vid)

/-- `listTripsForVehicle`: rows referencing the vehicle. -/
def listTripsForVehicle (s : StoreState) (vid : Nat) : List Trip :=
  s.trips.filter (fun t => t.vehicleId == vid)

/-- `listBookingsForVehicle`: rows referencing the vehicle. -/
def listBookingsForVehicle (s : StoreState) (vid : Nat) : List Booking :=
  s.bookings.filter (fun b => b.vehicleId == vid)

/-- `DatabaseStorage.deleteVehicle` (`src/unnamed/part_008` lines 485-489):
unconditional `DELETE ... RETURNING`; the boolean reports whether a row
was removed. -/
def dbDeleteVehicle (s : StoreState) (id : Nat) : Bool × StoreState :=
  (s.vehicles.any (fun v => v.id == id), { s with vehicles := s.vehicles.filter (fun v => v.id != id) })

/-- The `DELETE /api/vehicles/:id` handler (`src/server/auth.ts` lines
246-286): reject while any maintenance, trip or booking record still
references the vehicle (a blocking-dependents conflict); otherwise delete,
reporting not-found when no row matched. -/
def deleteVehicleRoute (s : StoreState) (id : Nat) : Except FleetError StoreState :=
  if 0 < (listMaintenanceForVehicle s id).length then .error .conflictError
  else if 0 < (listTripsForVehicle s id).length then .error .conflictError
  else if 0 < (listBookingsForVehicle s id).length then .error .conflictError
  else
    let r := dbDeleteVehicle s id
    if r.1 then .ok r.2 else .error .notFoundError

/-- The store state left behind by the delete-vehicle handler: unchanged
when the handler rejects before calling `deleteVehicle`. -/
def deleteVehiclePersisted (s : StoreState) (id : Nat) : StoreState :=
  match deleteVehicleRoute s id with
  | .ok s1 => s1
  | .error _ => s

/-- Ascending-date comparison used by both `listUpcomingMaintenance`
implementations (`ORDER BY date` / `sort by getTime difference`). -/
def dateLe (a b : Maintenance) : Prop := a.date ≤ b.date

instance : DecidableRel dateLe := fun a b => Nat.decLe a.date b.date

instance : IsTotal Maintenance dateLe := ⟨fun a b => Nat.le_total a.date b.date⟩

instance : IsTrans Maintenance dateLe := ⟨fun _ _ _ => Nat.le_trans⟩

/-- `DatabaseStorage.listUpcomingMaintenance` (`src/unnamed/part_008`
lines 622-632): non-completed records whose date is on or after the
current date (`date >= CURRENT_DATE`), ordered by ascending date.
`today` is the current date. -/
def dbListUpcomingMaintenance (today : Nat) (s : StoreState) : List Maintenance :=
  List.insertionSort dateLe (s.maintenances.filter (fun m => m.status != .completed && decide (today ≤ m.date)))

/-- `MemStorage.listUpcomingMaintenance` (`src/unnamed/part_008` lines
244-248): all non-completed records, ordered by ascending date — no
current-date filter. -/
def memListUpcomingMaintenance (s : StoreState) : List Maintenance :=
  List.insertionSort dateLe (s.maintenances.filter (fun m => m.status != .completed))

/-- `DatabaseStorage.createTrip` with an explicit write-failure oracle:
`fails k = true` means the k-th SQL write statement inside the
`db.transaction` callback raises; a raise aborts the callback and
`db.transaction` rolls the whole unit of work back (`none`). Write `0` is
the trip insert, write `1` the vehicle-status update. -/
def dbCreateTripTx (fails : Nat → Bool) (s : StoreState) (td : InsertTrip) :
    Option StoreState :=
  if fails 0 then none
  else
    let t := td.toRow s.nextTripId
    let s1 : StoreState := { s with trips := s.trips ++ [t], nextTripId := s.nextTripId + 1 }
    if td.status == .in_progress then
      match getVehicle s1 td.vehicleId with
      | some v =>
        if v.status == .available then
          if fails 1 then none else some (setVehicleStatus s1 td.vehicleId .in_use)
        else some s1
      | none => some s1
    else some s1

/-- The state the store holds after `createTrip` under the failure oracle:
the transaction result, or the rolled-back original state. -/
def dbCreateTripCommitted (fails : Nat → Bool) (s : StoreState) (td : InsertTrip) :
    StoreState :=
  (dbCreateTripTx fails s td).getD s

/-- `DatabaseStorage.updateTrip` with a write-failure oracle (write `0` is
the trip-row update, write `1` the vehicle update). A trip id matching no
row commits no change and returns normally (JS `undefined`). -/
def dbUpdateTripTx (fails : Nat → Bool) (s : StoreState) (id : Nat) (p : TripPatch) :
    Option StoreState :=
  if fails 0 then none
  else
    match getTrip s id with
    | none => some s
    | some _ =>
      let updT := fun t : Trip => if t.id == id then t.apply p else t
      let s1 : StoreState := { s with trips := s.trips.map updT }
      if p.status == some .completed && dateTruthy p.endTime then
        match getTrip s1 id with
        | some tr =>
          match getVehicle s1 tr.vehicleId with
          | some v =>
            if v.status == .in_use then
              if fails 1 then none
              else some (setVehicleStatusMileage s1 tr.vehicleId .available (numOr p.endOdometer v.mileage))
            else some s1
          | none => some s1
        | none => some s1
      else some s1

/-- The state committed by `updateTrip` under the failure oracle. -/
def dbUpdateTripCommitted (fails : Nat → Bool) (s : StoreState) (id : Nat)
    (p : TripPatch) : StoreState :=
  (dbUpdateTripTx fails s id p).getD s

/-- The final state of the pure success path of `dbUpdateTrip` (the state
the transaction commits when nothing fails). -/
def dbUpdateTripState (s : StoreState) (id : Nat) (p : TripPatch) : StoreState :=
  match dbUpdateTrip s id p with
  | some r => r.2
  | none => s

/-- `DatabaseStorage.createMaintenance` with a write-failure oracle
(write `0` inserts the record, write `1` updates the vehicle). -/
def dbCreateMaintenanceTx (fails : Nat → Bool) (s : StoreState)
    (md : InsertMaintenance) : Option StoreState :=
  if fails 0 then none
  else
    let m := md.toRow s.nextMaintenanceId
    let s1 : StoreState := { s with maintenances := s.maintenances ++ [m], nextMaintenanceId := s.nextMaintenanceId + 1 }
    if md.status != .completed then
      match getVehicle s1 md.vehicleId with
      | some v =>
        if v.status == .available then
          if fails 1 then none else some (setVehicleStatus s1 md.vehicleId .maintenance)
        else some s1
      | none => some s1
    else some s1

/-- The state committed by `createMaintenance` under the failure oracle. -/
def dbCreateMaintenanceCommitted (fails : Nat → Bool) (s : StoreState)
    (md : InsertMaintenance) : StoreState :=
  (dbCreateMaintenanceTx fails s md).getD s

/-- `DatabaseStorage.updateMaintenance` with a write-failure oracle
(write `0` updates the record, write `1` updates the vehicle). -/
def dbUpdateMaintenanceTx (fails : Nat → Bool) (s : StoreState) (id : Nat)
    (p : MaintPatch) : Option StoreState :=
  if fails 0 then none
  else
    match getMaintenance s id with
    | none => some s
    | some _ =>
      let updM := fun m : Maintenance => if m.id == id then m.apply p else m
      let s1 : StoreState := { s with maintenances := s.maintenances.map updM }
      if p.status == some .completed then
        match getMaintenance s1 id with
        | some mr =>
          match getVehicle s1 mr.vehicleId with
          | some v =>
            if v.status == .maintenance then
              if fails 1 then none else some (setVehicleStatus s1 mr.vehicleId .available)
            else some s1
          | none => some s1
        | none => some s1
      else some s1

/-- The state committed by `updateMaintenance` under the failure oracle. -/
def dbUpdateMaintenanceCommitted (fails : Nat → Bool) (s : StoreState) (id : Nat)
    (p : MaintPatch) : StoreState :=
  (dbUpdateMaintenanceTx fails s id p).getD s

/-- The final state of the pure success path of `dbUpdateMaintenance`. -/
def dbUpdateMaintenanceState (s : StoreState) (id : Nat) (p : MaintPatch) :
    StoreState :=
  match dbUpdateMaintenance s id p with
  | some r => r.2
  | none => s

/-- A keyed `UPDATE ... WHERE key = k` rewrites exactly the row that
`find?` locates, provided the update preserves the key. -/
theorem find?_map_if {α : Type} (key : α → Nat) (f : α → α) (k : Nat)
    (hf : ∀ w, key (f w) = key w) :
    ∀ (l : List α) (v : α), l.find? (fun w => key w == k) = some v →
      (l.map (fun w => if key w == k then f w else w)).find? (fun w => key w == k) =
        some (f v) := by
  intro l
  induction l with
  | nil => intro v h; simp at h
  | cons a l ih =>
    intro v h
    rw [List.find?_cons] at h
    by_cases hak : key a = k
    · simp only [List.map_cons, if_pos (show (key a == k) = true by simp [hak])]
      rw [List.find?_cons]
      simp only [show ((fun w => key w == k) (f a)) = true by simp [hf, hak]]
      simp only [show ((fun w => key w == k) a) = true by simp [hak]] at h
      simp only [Option.some.injEq] at h
      subst h
      rfl
    · simp only [List.map_cons, if_neg (show ¬ ((key a == k) = true) by simp [hak])]
      rw [List.find?_cons]
      simp only [show ((fun w => key w == k) a) = false by simp [hak]]
      simp only [show ((fun w => key w == k) a) = false by simp [hak]] at h
      exact ih v h

/-- An appended fresh row is what `find?` locates when no earlier row
matches. -/
theorem find?_append_fresh {α : Type} (p : α → Bool) (l : List α) (x : α)
    (hl : ∀ w ∈ l, p w = false) (hx : p x = true) :
    (l ++ [x]).find? p = some x := by
  rw [List.find?_append]
  have hnone : l.find? p = none := by
    rw [List.find?_eq_none]
    intro w hw
    simp [hl w hw]
  rw [hnone]
  simp [List.find?, hx]

/-! ## Claim C1 -/

/-- **C1 (amended).** For every trip-creation input with status
`in_progress` against an existing vehicle: the trip row is always
inserted; when the vehicle's status is `available` the vehicle ends with
status `in_use`; when the vehicle's status is `maintenance`,
`Trip.create` nevertheless succeeds — the trip row is inserted and the
vehicle is left unchanged (no `ConflictError` is raised on this path). -/
theorem createTrip_in_progress_vehicle_status
    (s : StoreState) (td : InsertTrip) (v : Vehicle)
    (hst : td.status = .in_progress)
    (hv : getVehicle s td.vehicleId = some v) :
    (dbCreateTrip s td).1 ∈ (dbCreateTrip s td).2.trips ∧
    (v.status = .available →
      getVehicle (dbCreateTrip s td).2 td.vehicleId = some { v with status := .in_use }) ∧
    (v.status = .maintenance →
      getVehicle (dbCreateTrip s td).2 td.vehicleId = some v) := by
  have hv1 : getVehicle { s with trips := s.trips ++ [td.toRow s.nextTripId], nextTripId := s.nextTripId + 1 } td.vehicleId = some v := hv
  unfold dbCreateTrip
  simp only [hst, beq_self_eq_true, if_true]
  rw [hv1]
  by_cases hva : v.status = .available
  · simp only [hva, beq_self_eq_true, if_true]
    refine ⟨?_, fun _ => ?_, fun hm => ?_⟩
    · simp [setVehicleStatus]
    · exact find?_map_if Vehicle.id (fun w => { w with status := .in_use })
        td.vehicleId (fun _ => rfl) _ v hv1
    · simp at hm
  · simp only [show (v.status == VStatus.available) = false by simp [hva], Bool.false_eq_true, if_false]
    exact ⟨by simp, fun ha => absurd ha hva, fun _ => hv1⟩

/-- C1 witness input: one available vehicle, id 1. -/
def vAvailC1 : Vehicle := { id := 1 }

/-- C1 witness store. -/
def sAvailC1 : StoreState := { vehicles := [vAvailC1] }

/-- C1 witness trip-creation input. -/
def tdC1 : InsertTrip :=
  { vehicleId := 1, driverId := 7, startTime := 100, startOdometer := 1000, status := .in_progress }

/-- Witness for C1: on the concrete available vehicle the trip is inserted
and the vehicle becomes `in_use`. -/
theorem createTrip_in_progress_vehicle_status_witness :
    (dbCreateTrip sAvailC1 tdC1).1 ∈ (dbCreateTrip sAvailC1 tdC1).2.trips ∧
    getVehicle (dbCreateTrip sAvailC1 tdC1).2 1 = some { vAvailC1 with status := .in_use } := by
  have h := createTrip_in_progress_vehicle_status sAvailC1 tdC1 vAvailC1 rfl rfl
  exact ⟨h.1, h.2.1 rfl⟩

/-- C1 counterexample vehicle: in `maintenance`. -/
def vMaintC1 : Vehicle := { id := 1, status := .maintenance }

/-- C1 counterexample store. -/
def sMaintC1 : StoreState := { vehicles := [vMaintC1] }

/-- C1 counterexample trip-creation input. -/
def tdMaintC1 : InsertTrip :=
  { vehicleId := 1, driverId := 7, startTime := 100, startOdometer := 1000, status := .in_progress }

/-- **C1 counterexample.** Creating an `in_progress` trip against a
vehicle in `maintenance` does not fail with `ConflictError`: the trip row
IS inserted (the vehicle stays untouched), refuting the claimed rejection
with no insert. -/
theorem createTrip_on_maintenance_vehicle_inserts :
    (dbCreateTrip sMaintC1 tdMaintC1).2.trips = [tdMaintC1.toRow 1] ∧
    getVehicle (dbCreateTrip sMaintC1 tdMaintC1).2 1 = some vMaintC1 := ⟨rfl, rfl⟩

/-! ## Claim C2 -/

/-- **C2.** For every booking-creation input: a missing referenced vehicle
is rejected as not-found; an existing vehicle whose status is not
`available` is rejected as a vehicle-not-available conflict; in both
failure cases the store — in particular its bookings table — is left
unchanged. -/
theorem createBooking_rejections
    (now : Nat) (s : StoreState) (bd : InsertBooking) :
    (getVehicle s bd.vehicleId = none →
      dbCreateBooking now s bd = .error .notFoundError ∧
      dbCreateBookingPersisted now s bd = s) ∧
    (∀ v, getVehicle s bd.vehicleId = some v → v.status ≠ .available →
      dbCreateBooking now s bd = .error .conflictError ∧
      dbCreateBookingPersisted now s bd = s) := by
  constructor
  · intro hn
    have h1 : dbCreateBooking now s bd = .error .notFoundError := by
      unfold dbCreateBooking; rw [hn]
    exact ⟨h1, by unfold dbCreateBookingPersisted; rw [h1]⟩
  · intro v hv hna
    have h1 : dbCreateBooking now s bd = .error .conflictError := by
      unfold dbCreateBooking
      rw [hv]
      simp only [show (v.status != VStatus.available) = true by simp [hna], if_true]
    exact ⟨h1, by unfold dbCreateBookingPersisted; rw [h1]⟩

/-- C2 witness vehicle: exists but is `in_use`. -/
def vC2 : Vehicle := { id := 2, status := .in_use }

/-- C2 witness store. -/
def sC2 : StoreState := { vehicles := [vC2] }

/-- C2 witness booking input against a missing vehicle id. -/
def bdC2missing : InsertBooking := { vehicleId := 9, userId := 5, startTime := 0, endTime := 10 }

/-- C2 witness booking input against the busy vehicle. -/
def bdC2busy : InsertBooking := { vehicleId := 2, userId := 5, startTime := 0, endTime := 10 }

/-- Witness for C2 at two concrete inputs: missing vehicle ⇒ not-found;
`in_use` vehicle ⇒ conflict with the store unchanged. -/
theorem createBooking_rejections_witness :
    dbCreateBooking 50 sC2 bdC2missing = .error .notFoundError ∧
    dbCreateBooking 50 sC2 bdC2busy = .error .conflictError ∧
    dbCreateBookingPersisted 50 sC2 bdC2busy = sC2 := by
  have h1 := createBooking_rejections 50 sC2 bdC2missing
  have h2 := createBooking_rejections 50 sC2 bdC2busy
  exact ⟨(h1.1 rfl).1, (h2.2 vC2 rfl (by decide)).1, (h2.2 vC2 rfl (by decide)).2⟩

/-! ## Claims C3 and C4 (shared completion lemma) -/

/-- Shared description of the trip-completion path of
`DatabaseStorage.updateTrip`: for any patch with `status: completed` and a
present `endTime`, applied to an existing trip whose vehicle is `in_use`,
the trip row is merged and the vehicle is set to `available` with
`mileage = patch.endOdometer || vehicle.mileage`. No odometer validation
of any kind occurs on this path. -/
theorem updateTrip_complete_spec
    (s : StoreState) (id : Nat) (p : TripPatch) (t : Trip) (v : Vehicle) (e : Nat)
    (ht : getTrip s id = some t)
    (hvid : p.vehicleId = none)
    (hv : getVehicle s t.vehicleId = some v)
    (hvs : v.status = .in_use)
    (hps : p.status = some .completed)
    (hpe : p.endTime = some (some e)) :
    ∃ s1, dbUpdateTrip s id p = some (t.apply p, s1) ∧
      getTrip s1 id = some (t.apply p) ∧
      getVehicle s1 t.vehicleId =
        some { v with status := .available, mileage := numOr p.endOdometer v.mileage } := by
  have hkey : ∀ tr : Trip, (tr.apply p).id = tr.id := fun _ => rfl
  have ht1 : ({ s with trips := s.trips.map (fun tr => if tr.id == id then tr.apply p else tr) } : StoreState).trips.find? (fun tr => tr.id == id) = some (t.apply p) :=
    find?_map_if Trip.id (fun tr => tr.apply p) id hkey s.trips t ht
  have hvid1 : (t.apply p).vehicleId = t.vehicleId := by
    simp [Trip.apply, hvid]
  unfold dbUpdateTrip
  rw [ht]
  simp only [hps, hpe, dateTruthy, beq_self_eq_true, Bool.and_self, if_true]
  rw [show getTrip { s with trips := s.trips.map (fun tr => if tr.id == id then tr.apply p else tr) } id = some (t.apply p) from ht1]
  simp only [hvid1]
  rw [show getVehicle { s with trips := s.trips.map (fun tr => if tr.id == id then tr.apply p else tr) } t.vehicleId = some v from hv]
  simp only [hvs, beq_self_eq_true, if_true]
  refine ⟨_, rfl, ?_, ?_⟩
  · exact ht1
  · exact find?_map_if Vehicle.id
      (fun w => { w with status := .available, mileage := numOr p.endOdometer v.mileage })
      t.vehicleId (fun _ => rfl) s.vehicles v hv

/-- **C3 (amended).** Completing an `in_progress` trip on an `in_use`
vehicle with endOdometer `X ≥ startOdometer` (and `X ≠ 0`) sets the
vehicle's status back to `available` and its mileage to `X` itself —
`endOdometer || mileage` — not to `max(priorMileage, X)`. -/
theorem updateTrip_complete_mileage
    (s : StoreState) (id : Nat) (p : TripPatch) (t : Trip) (v : Vehicle) (x e : Nat)
    (ht : getTrip s id = some t)
    (hts : t.status = .in_progress)
    (hvid : p.vehicleId = none)
    (hv : getVehicle s t.vehicleId = some v)
    (hvs : v.status = .in_use)
    (hps : p.status = some .completed)
    (hpe : p.endTime = some (some e))
    (hpo : p.endOdometer = some (some x))
    (hx0 : x ≠ 0)
    (hge : t.startOdometer ≤ x) :
    ∃ s1, dbUpdateTrip s id p = some (t.apply p, s1) ∧
      getVehicle s1 t.vehicleId = some { v with status := .available, mileage := x } := by
  obtain ⟨s1, hrun, _, hveh⟩ := updateTrip_complete_spec s id p t v e ht hvid hv hvs hps hpe
  refine ⟨s1, hrun, ?_⟩
  rw [hveh]
  simp [numOr, hpo, hx0]

/-- C3 vehicle: `in_use`, prior mileage 1000. -/
def vC3 : Vehicle := { id := 1, status := .in_use, mileage := 1000 }

/-- C3 trip: `in_progress`, startOdometer 400. -/
def tC3 : Trip := { id := 1, vehicleId := 1, driverId := 7, startTime := 0, startOdometer := 400, status := .in_progress }

/-- C3 store. -/
def sC3 : StoreState := { vehicles := [vC3], trips := [tC3], nextTripId := 2 }

/-- C3 completion patch: endOdometer 500 ≥ startOdometer 400, but 500 is
below the prior mileage 1000. -/
def pC3 : TripPatch := { endTime := some (some 50), endOdometer := some (some 500), status := some .completed }

/-- Witness for C3 (amended): at the concrete input the vehicle ends
`available` with mileage 500. -/
theorem updateTrip_complete_mileage_witness :
    ∃ s1, dbUpdateTrip sC3 1 pC3 = some (tC3.apply pC3, s1) ∧
      getVehicle s1 1 = some { vC3 with status := .available, mileage := 500 } := by
  have h := updateTrip_complete_mileage sC3 1 pC3 tC3 vC3 500 50 rfl rfl rfl rfl rfl rfl rfl rfl
    (by decide) (by decide)
  exact h

/-- **C3 counterexample.** Prior mileage 1000, startOdometer 400,
endOdometer 500 ≥ 400: the committed mileage is 500, which differs from
max(1000, 500) = 1000, refuting `mileage = max(priorMileage, X)`. -/
theorem updateTrip_complete_mileage_not_max :
    ((dbUpdateTrip sC3 1 pC3).map (fun r => r.2.vehicles.map Vehicle.mileage) = some [500]) ∧
    500 ≠ max 1000 500 := by
  exact ⟨rfl, by decide⟩

/-- **C4 (amended).** `Trip.update` performs no `endOdometer ≥
startOdometer` validation: a completion update whose endOdometer `X` is
strictly below the trip's startOdometer is accepted, the merged trip row
(with the smaller endOdometer) is stored, and the `in_use` vehicle is set
to `available` with its mileage computed as `endOdometer || mileage` —
regressed to `X` when `X ≠ 0` and left at the prior mileage when `X = 0`
(zero is falsy in JS). No `ValidationError` exists on this path. -/
theorem updateTrip_no_odometer_validation
    (s : StoreState) (id : Nat) (p : TripPatch) (t : Trip) (v : Vehicle) (x e : Nat)
    (ht : getTrip s id = some t)
    (hvid : p.vehicleId = none)
    (hv : getVehicle s t.vehicleId = some v)
    (hvs : v.status = .in_use)
    (hps : p.status = some .completed)
    (hpe : p.endTime = some (some e))
    (hpo : p.endOdometer = some (some x))
    (hlt : x < t.startOdometer) :
    ∃ s1, dbUpdateTrip s id p = some (t.apply p, s1) ∧
      (t.apply p).endOdometer = some x ∧
      getTrip s1 id = some (t.apply p) ∧
      getVehicle s1 t.vehicleId =
        some { v with status := .available, mileage := if x = 0 then v.mileage else x } := by
  obtain ⟨s1, hrun, htr, hveh⟩ := updateTrip_complete_spec s id p t v e ht hvid hv hvs hps hpe
  refine ⟨s1, hrun, ?_, htr, ?_⟩
  · simp [Trip.apply, hpo]
  · rw [hveh]
    have hmi : numOr p.endOdometer v.mileage = if x = 0 then v.mileage else x := by
      simp [numOr, hpo]
    rw [hmi]

/-- C4 vehicle: `in_use`, prior mileage 1000. -/
def vC4 : Vehicle := { id := 1, status := .in_use, mileage := 1000 }

/-- C4 trip: startOdometer 400. -/
def tC4 : Trip := { id := 1, vehicleId := 1, driverId := 7, startTime := 0, startOdometer := 400, status := .in_progress }

/-- C4 store. -/
def sC4 : StoreState := { vehicles := [vC4], trips := [tC4], nextTripId := 2 }

/-- C4 completion patch: endOdometer 300 < startOdometer 400. -/
def pC4 : TripPatch := { endTime := some (some 60), endOdometer := some (some 300), status := some .completed }

/-- C4 zero-endOdometer completion patch: endOdometer 0 < startOdometer
400; zero is falsy, so the fallback keeps the prior mileage. -/
def pC4zero : TripPatch := { endTime := some (some 60), endOdometer := some (some 0), status := some .completed }

/-- Witness for C4 (amended) at two concrete inputs: endOdometer 300
regresses the mileage from 1000 to 300; endOdometer 0 is applied to the
trip row but the falsy fallback keeps the mileage at 1000. Neither is
rejected. -/
theorem updateTrip_no_odometer_validation_witness :
    (∃ s1, dbUpdateTrip sC4 1 pC4 = some (tC4.apply pC4, s1) ∧
      (tC4.apply pC4).endOdometer = some 300 ∧
      getTrip s1 1 = some (tC4.apply pC4) ∧
      getVehicle s1 1 = some { vC4 with status := .available, mileage := 300 }) ∧
    (∃ s1, dbUpdateTrip sC4 1 pC4zero = some (tC4.apply pC4zero, s1) ∧
      (tC4.apply pC4zero).endOdometer = some 0 ∧
      getVehicle s1 1 = some { vC4 with status := .available, mileage := 1000 }) := by
  constructor
  · have h := updateTrip_no_odometer_validation sC4 1 pC4 tC4 vC4 300 60 rfl rfl rfl rfl rfl
      rfl rfl (by decide)
    simpa using h
  · have h := updateTrip_no_odometer_validation sC4 1 pC4zero tC4 vC4 0 60 rfl rfl rfl rfl rfl
      rfl rfl (by decide)
    obtain ⟨s1, hrun, hend, htr, hveh⟩ := h
    exact ⟨s1, hrun, hend, by simpa [vC4] using hveh⟩

/-- **C4 counterexample.** With endOdometer 300 < startOdometer 400 the
update is not rejected: it returns the merged trip (endOdometer 300) and
regresses the vehicle's mileage from 1000 to 300 — both the trip record
and the vehicle change, refuting the claimed `ValidationError` with
nothing changed. -/
theorem updateTrip_applies_smaller_endOdometer :
    ((dbUpdateTrip sC4 1 pC4).map (fun r => r.1.endOdometer) = some (some 300)) ∧
    ((dbUpdateTrip sC4 1 pC4).map (fun r => r.2.vehicles.map Vehicle.mileage) = some [300]) ∧
    300 < 400 := by
  exact ⟨rfl, rfl, by decide⟩

/-! ## Claim C5 -/

/-- All-or-nothing for `createTrip` under the failure oracle. -/
theorem createTrip_all_or_nothing (fails : Nat → Bool) (s : StoreState) (td : InsertTrip) :
    dbCreateTripCommitted fails s td = s ∨
    dbCreateTripCommitted fails s td = (dbCreateTrip s td).2 := by
  unfold dbCreateTripCommitted dbCreateTripTx dbCreateTrip
  by_cases h0 : fails 0 = true
  · left; simp [h0]
  · simp only [Bool.not_eq_true] at h0
    simp only [h0, Bool.false_eq_true, if_false]
    by_cases hst : (td.status == TripStatus.in_progress) = true
    · simp only [hst, if_true]
      cases hgv : getVehicle { s with trips := s.trips ++ [td.toRow s.nextTripId], nextTripId := s.nextTripId + 1 } td.vehicleId with
      | none => right; simp
      | some v =>
        by_cases hva : (v.status == VStatus.available) = true
        · simp only [hva, if_true]
          by_cases h1 : fails 1 = true
          · left; simp [h1]
          · simp only [Bool.not_eq_true] at h1
            right; simp [h1]
        · simp only [Bool.not_eq_true] at hva
          simp only [hva, Bool.false_eq_true, if_false]
          right; simp
    · simp only [Bool.not_eq_true] at hst
      simp only [hst, Bool.false_eq_true, if_false]
      right; simp

/-- All-or-nothing for `updateTrip` under the failure oracle. -/
theorem updateTrip_all_or_nothing (fails : Nat → Bool) (s : StoreState) (id : Nat)
    (p : TripPatch) :
    dbUpdateTripCommitted fails s id p = s ∨
    dbUpdateTripCommitted fails s id p = dbUpdateTripState s id p := by
  unfold dbUpdateTripCommitted dbUpdateTripTx dbUpdateTripState dbUpdateTrip
  by_cases h0 : fails 0 = true
  · left; rw [if_pos h0]; rfl
  · rw [if_neg h0]
    cases ht : getTrip s id with
    | none => left; rfl
    | some t0 =>
      dsimp only
      by_cases hcond : (p.status == some TripStatus.completed && dateTruthy p.endTime) = true
      · rw [if_pos hcond, if_pos hcond]
        cases htr : getTrip { s with trips := s.trips.map (fun t => if t.id == id then t.apply p else t) } id with
        | none => right; rfl
        | some tr =>
          dsimp only
          cases hgv : getVehicle { s with trips := s.trips.map (fun t => if t.id == id then t.apply p else t) } tr.vehicleId with
          | none => right; rfl
          | some v =>
            dsimp only
            by_cases hvs : (v.status == VStatus.in_use) = true
            · rw [if_pos hvs, if_pos hvs]
              by_cases h1 : fails 1 = true
              · rw [if_pos h1]; left; rfl
              · rw [if_neg h1]; right; rfl
            · rw [if_neg hvs, if_neg hvs]; right; rfl
      · rw [if_neg hcond, if_neg hcond]; right; rfl

/-- All-or-nothing for `createMaintenance` under the failure oracle. -/
theorem createMaintenance_all_or_nothing (fails : Nat → Bool) (s : StoreState)
    (md : InsertMaintenance) :
    dbCreateMaintenanceCommitted fails s md = s ∨
    dbCreateMaintenanceCommitted fails s md = (dbCreateMaintenance s md).2 := by
  unfold dbCreateMaintenanceCommitted dbCreateMaintenanceTx dbCreateMaintenance
  by_cases h0 : fails 0 = true
  · left; simp [h0]
  · simp only [Bool.not_eq_true] at h0
    simp only [h0, Bool.false_eq_true, if_false]
    by_cases hst : (md.status != MaintStatus.completed) = true
    · simp only [hst, if_true]
      cases hgv : getVehicle { s with maintenances := s.maintenances ++ [md.toRow s.nextMaintenanceId], nextMaintenanceId := s.nextMaintenanceId + 1 } md.vehicleId with
      | none => right; simp
      | some v =>
        by_cases hva : (v.status == VStatus.available) = true
        · simp only [hva, if_true]
          by_cases h1 : fails 1 = true
          · left; simp [h1]
          · simp only [Bool.not_eq_true] at h1
            right; simp [h1]
        · simp only [Bool.not_eq_true] at hva
          simp only [hva, Bool.false_eq_true, if_false]
          right; simp
    · simp only [Bool.not_eq_true] at hst
      simp only [hst, Bool.false_eq_true, if_false]
      right; simp

/-- All-or-nothing for `updateMaintenance` under the failure oracle. -/
theorem updateMaintenance_all_or_nothing (fails : Nat → Bool) (s : StoreState) (id : Nat)
    (p : MaintPatch) :
    dbUpdateMaintenanceCommitted fails s id p = s ∨
    dbUpdateMaintenanceCommitted fails s id p = dbUpdateMaintenanceState s id p := by
  unfold dbUpdateMaintenanceCommitted dbUpdateMaintenanceTx dbUpdateMaintenanceState dbUpdateMaintenance
  by_cases h0 : fails 0 = true
  · left; rw [if_pos h0]; rfl
  · rw [if_neg h0]
    cases hm : getMaintenance s id with
    | none => left; rfl
    | some m0 =>
      dsimp only
      by_cases hcond : (p.status == some MaintStatus.completed) = true
      · rw [if_pos hcond, if_pos hcond]
        cases hmr : getMaintenance { s with maintenances := s.maintenances.map (fun m => if m.id == id then m.apply p else m) } id with
        | none => right; rfl
        | some mr =>
          dsimp only
          cases hgv : getVehicle { s with maintenances := s.maintenances.map (fun m => if m.id == id then m.apply p else m) } mr.vehicleId with
          | none => right; rfl
          | some v =>
            dsimp only
            by_cases hvs : (v.status == VStatus.maintenance) = true
            · rw [if_pos hvs, if_pos hvs]
              by_cases h1 : fails 1 = true
              · rw [if_pos h1]; left; rfl
              · rw [if_neg h1]; right; rfl
            · rw [if_neg hvs, if_neg hvs]; right; rfl
      · rw [if_neg hcond, if_neg hcond]; right; rfl

/-- **C5.** Every vehicle-coupled manager operation (`Trip.create`, trip
completion via `Trip.update`, `Maintenance.create`, maintenance completion
via `Maintenance.update`) commits all of its writes or none of them: under
every write-failure oracle the committed store is either the untouched
original state or the full success-path result — never a partial state
such as a trip inserted with the vehicle's status not yet written. -/
theorem transactional_ops_all_or_nothing :
    (∀ (fails : Nat → Bool) (s : StoreState) (td : InsertTrip),
      dbCreateTripCommitted fails s td = s ∨
      dbCreateTripCommitted fails s td = (dbCreateTrip s td).2) ∧
    (∀ (fails : Nat → Bool) (s : StoreState) (id : Nat) (p : TripPatch),
      dbUpdateTripCommitted fails s id p = s ∨
      dbUpdateTripCommitted fails s id p = dbUpdateTripState s id p) ∧
    (∀ (fails : Nat → Bool) (s : StoreState) (md : InsertMaintenance),
      dbCreateMaintenanceCommitted fails s md = s ∨
      dbCreateMaintenanceCommitted fails s md = (dbCreateMaintenance s md).2) ∧
    (∀ (fails : Nat → Bool) (s : StoreState) (id : Nat) (p : MaintPatch),
      dbUpdateMaintenanceCommitted fails s id p = s ∨
      dbUpdateMaintenanceCommitted fails s id p = dbUpdateMaintenanceState s id p) :=
  ⟨createTrip_all_or_nothing, updateTrip_all_or_nothing,
   createMaintenance_all_or_nothing, updateMaintenance_all_or_nothing⟩

/-! ## Claim C6 -/

/-- **C6.** On an `available` vehicle, creating a maintenance record whose
initial status is not `completed` moves the vehicle to `maintenance`, and
then updating that record to `completed` (with a `completedAt`) moves the
vehicle back to `available`; both fetched vehicle records carry the
original mileage untouched (the updates write only the status field). -/
theorem maintenance_create_complete_round_trip
    (s : StoreState) (md : InsertMaintenance) (p : MaintPatch) (v : Vehicle) (ts : Nat)
    (hfresh : ∀ m ∈ s.maintenances, m.id ≠ s.nextMaintenanceId)
    (hv : getVehicle s md.vehicleId = some v)
    (hva : v.status = .available)
    (hms : md.status ≠ .completed)
    (hpvid : p.vehicleId = none)
    (hps : p.status = some .completed)
    (hpc : p.completedAt = some (some ts)) :
    ∃ m s1, dbCreateMaintenance s md = (m, s1) ∧
      getVehicle s1 md.vehicleId = some { v with status := .maintenance } ∧
      ∃ m2 s2, dbUpdateMaintenance s1 m.id p = some (m2, s2) ∧
        getVehicle s2 md.vehicleId = some { v with status := .available } := by
  have hv1 : getVehicle { s with maintenances := s.maintenances ++ [md.toRow s.nextMaintenanceId], nextMaintenanceId := s.nextMaintenanceId + 1 } md.vehicleId = some v := hv
  unfold dbCreateMaintenance
  rw [if_pos (show (md.status != MaintStatus.completed) = true by simp [hms])]
  rw [hv1]
  dsimp only
  rw [if_pos (show (v.status == VStatus.available) = true by simp [hva])]
  refine ⟨_, _, rfl, ?_, ?_⟩
  · exact find?_map_if Vehicle.id (fun w => { w with status := .maintenance })
      md.vehicleId (fun _ => rfl) _ v hv1
  · -- the state after creation
    have hveh1 : getVehicle (setVehicleStatus { s with maintenances := s.maintenances ++ [md.toRow s.nextMaintenanceId], nextMaintenanceId := s.nextMaintenanceId + 1 } md.vehicleId VStatus.maintenance) md.vehicleId = some { v with status := .maintenance } :=
      find?_map_if Vehicle.id (fun w => { w with status := .maintenance })
        md.vehicleId (fun _ => rfl) _ v hv1
    have hm1 : getMaintenance (setVehicleStatus { s with maintenances := s.maintenances ++ [md.toRow s.nextMaintenanceId], nextMaintenanceId := s.nextMaintenanceId + 1 } md.vehicleId VStatus.maintenance) (md.toRow s.nextMaintenanceId).id = some (md.toRow s.nextMaintenanceId) := by
      unfold getMaintenance setVehicleStatus
      refine find?_append_fresh _ s.maintenances (md.toRow s.nextMaintenanceId) ?_ (by simp)
      intro w hw
      simp [InsertMaintenance.toRow]
      exact hfresh w hw
    unfold dbUpdateMaintenance
    rw [hm1]
    dsimp only
    rw [if_pos (show (p.status == some MaintStatus.completed) = true by simp [hps])]
    have hkey : ∀ m : Maintenance, (m.apply p).id = m.id := fun _ => rfl
    have hm2 : (List.map (fun m => if m.id == (md.toRow s.nextMaintenanceId).id then m.apply p else m) (setVehicleStatus { s with maintenances := s.maintenances ++ [md.toRow s.nextMaintenanceId], nextMaintenanceId := s.nextMaintenanceId + 1 } md.vehicleId VStatus.maintenance).maintenances).find? (fun m => m.id == (md.toRow s.nextMaintenanceId).id) = some ((md.toRow s.nextMaintenanceId).apply p) :=
      find?_map_if Maintenance.id (fun m => m.apply p) (md.toRow s.nextMaintenanceId).id hkey _ _ hm1
    rw [show getMaintenance { setVehicleStatus { s with maintenances := s.maintenances ++ [md.toRow s.nextMaintenanceId], nextMaintenanceId := s.nextMaintenanceId + 1 } md.vehicleId VStatus.maintenance with maintenances := (setVehicleStatus { s with maintenances := s.maintenances ++ [md.toRow s.nextMaintenanceId], nextMaintenanceId := s.nextMaintenanceId + 1 } md.vehicleId VStatus.maintenance).maintenances.map (fun m => if m.id == (md.toRow s.nextMaintenanceId).id then m.apply p else m) } (md.toRow s.nextMaintenanceId).id = some ((md.toRow s.nextMaintenanceId).apply p) from hm2]
    dsimp only
    have hvid2 : ((md.toRow s.nextMaintenanceId).apply p).vehicleId = md.vehicleId := by
      simp [Maintenance.apply, InsertMaintenance.toRow, hpvid]
    rw [hvid2]
    rw [show getVehicle { setVehicleStatus { s with maintenances := s.maintenances ++ [md.toRow s.nextMaintenanceId], nextMaintenanceId := s.nextMaintenanceId + 1 } md.vehicleId VStatus.maintenance with maintenances := (setVehicleStatus { s with maintenances := s.maintenances ++ [md.toRow s.nextMaintenanceId], nextMaintenanceId := s.nextMaintenanceId + 1 } md.vehicleId VStatus.maintenance).maintenances.map (fun m => if m.id == (md.toRow s.nextMaintenanceId).id then m.apply p else m) } md.vehicleId = some { v with status := .maintenance } from hveh1]
    dsimp only
    rw [if_pos (show (({ v with status := VStatus.maintenance } : Vehicle).status == VStatus.maintenance) = true by simp)]
    refine ⟨_, _, rfl, ?_⟩
    exact find?_map_if Vehicle.id (fun w => { w with status := .available })
      md.vehicleId (fun _ => rfl) _ { v with status := .maintenance } hveh1

/-- C6 witness vehicle. -/
def vC6 : Vehicle := { id := 1, mileage := 777 }

/-- C6 witness store. -/
def sC6 : StoreState := { vehicles := [vC6] }

/-- C6 witness maintenance-creation input (initially `pending`). -/
def mdC6 : InsertMaintenance :=
  { vehicleId := 1, type := .scheduled, description := "Oil change", date := 20240101, status := .pending }

/-- C6 witness completion patch. -/
def pC6 : MaintPatch := { cost := some (some 45), status := some .completed, completedAt := some (some 99) }

/-- Witness for C6 at the concrete scenario of the spec. -/
theorem maintenance_round_trip_witness :
    ∃ m s1, dbCreateMaintenance sC6 mdC6 = (m, s1) ∧
      getVehicle s1 1 = some { vC6 with status := .maintenance } ∧
      ∃ m2 s2, dbUpdateMaintenance s1 m.id pC6 = some (m2, s2) ∧
        getVehicle s2 1 = some { vC6 with status := .available } := by
  exact maintenance_create_complete_round_trip sC6 mdC6 pC6 vC6 99 (by simp [sC6]) rfl rfl
    (by decide) rfl rfl rfl

/-! ## Claim C7 -/

/-- **C7.** Deleting a vehicle is rejected as a conflict — with the store
unchanged — whenever at least one maintenance, trip or booking record
still references it; with zero dependent records and the vehicle present,
the delete succeeds and the vehicle is gone. -/
theorem deleteVehicle_dependents_guard (s : StoreState) (id : Nat) :
    ((0 < (listMaintenanceForVehicle s id).length ∨
      0 < (listTripsForVehicle s id).length ∨
      0 < (listBookingsForVehicle s id).length) →
      deleteVehicleRoute s id = .error .conflictError ∧
      deleteVehiclePersisted s id = s) ∧
    ((listMaintenanceForVehicle s id).length = 0 →
      (listTripsForVehicle s id).length = 0 →
      (listBookingsForVehicle s id).length = 0 →
      ∀ v, getVehicle s id = some v →
        ∃ s1, deleteVehicleRoute s id = .ok s1 ∧ getVehicle s1 id = none) := by
  constructor
  · intro hdep
    have hres : deleteVehicleRoute s id = .error .conflictError := by
      unfold deleteVehicleRoute
      by_cases h1 : 0 < (listMaintenanceForVehicle s id).length
      · rw [if_pos h1]
      · rw [if_neg h1]
        by_cases h2 : 0 < (listTripsForVehicle s id).length
        · rw [if_pos h2]
        · rw [if_neg h2]
          by_cases h3 : 0 < (listBookingsForVehicle s id).length
          · rw [if_pos h3]
          · exfalso
            rcases hdep with h | h | h
            · exact h1 h
            · exact h2 h
            · exact h3 h
    exact ⟨hres, by unfold deleteVehiclePersisted; rw [hres]⟩
  · intro h1 h2 h3 v hv
    unfold deleteVehicleRoute
    rw [if_neg (by simp [h1]), if_neg (by simp [h2]), if_neg (by simp [h3])]
    have hmem := List.mem_of_find?_eq_some hv
    have hpv := List.find?_some hv
    have hany : (s.vehicles.any (fun w => w.id == id)) = true :=
      List.any_eq_true.mpr ⟨v, hmem, hpv⟩
    dsimp only [dbDeleteVehicle]
    rw [if_pos hany]
    refine ⟨_, rfl, ?_⟩
    unfold getVehicle
    rw [List.find?_eq_none]
    intro w hw
    have hwp := List.of_mem_filter hw
    simp only [bne_iff_ne, ne_eq] at hwp
    simp [hwp]

/-- C7 vehicle. -/
def vC7 : Vehicle := { id := 3 }

/-- C7 dependent maintenance record. -/
def mC7 : Maintenance := { id := 1, vehicleId := 3, date := 5 }

/-- C7 store with one blocking dependent. -/
def sC7dep : StoreState := { vehicles := [vC7], maintenances := [mC7] }

/-- C7 store with zero dependents. -/
def sC7free : StoreState := { vehicles := [vC7] }

/-- Witness for C7: blocked delete on the dependent store, successful
delete on the dependent-free store. -/
theorem deleteVehicle_dependents_guard_witness :
    (deleteVehicleRoute sC7dep 3 = .error .conflictError ∧
      deleteVehiclePersisted sC7dep 3 = sC7dep) ∧
    ∃ s1, deleteVehicleRoute sC7free 3 = .ok s1 ∧ getVehicle s1 3 = none := by
  refine ⟨(deleteVehicle_dependents_guard sC7dep 3).1 (Or.inl (by decide)), ?_⟩
  exact (deleteVehicle_dependents_guard sC7free 3).2 (by decide) (by decide) (by decide) vC7 rfl

/-! ## Claim C8 -/

/-- **C8 (amended).** `DatabaseStorage.listUpcomingMaintenance` returns
exactly the maintenance records that are not `completed` AND whose date
is on or after the current date, in ascending date order; the in-memory
implementation has no date cutoff and returns all non-completed records
in ascending date order. -/
theorem listUpcomingMaintenance_spec (today : Nat) (s : StoreState) :
    (∀ m, m ∈ dbListUpcomingMaintenance today s ↔
      m ∈ s.maintenances ∧ m.status ≠ .completed ∧ today ≤ m.date) ∧
    List.Sorted dateLe (dbListUpcomingMaintenance today s) ∧
    (∀ m, m ∈ memListUpcomingMaintenance s ↔
      m ∈ s.maintenances ∧ m.status ≠ .completed) ∧
    List.Sorted dateLe (memListUpcomingMaintenance s) := by
  refine ⟨?_, ?_, ?_, ?_⟩
  · intro m
    unfold dbListUpcomingMaintenance
    rw [List.mem_insertionSort, List.mem_filter]
    simp [and_assoc]
  · exact List.sorted_insertionSort dateLe _
  · intro m
    unfold memListUpcomingMaintenance
    rw [List.mem_insertionSort, List.mem_filter]
    simp
  · exact List.sorted_insertionSort dateLe _

/-- C8 counterexample record: pending, dated 5 (before the current
date 10). -/
def mC8 : Maintenance := { id := 1, vehicleId := 1, date := 5, status := .pending }

/-- C8 counterexample store. -/
def sC8 : StoreState := { maintenances := [mC8] }

/-- **C8 counterexample.** With the current date 10, the deployed
implementation omits a pending record dated 5 even though its status is
not `completed` — the result is not "exactly the non-completed
records". -/
theorem listUpcomingMaintenance_omits_past_records :
    dbListUpcomingMaintenance 10 sC8 = [] ∧
    mC8 ∈ sC8.maintenances ∧ mC8.status ≠ .completed := by
  exact ⟨rfl, by decide, by decide⟩

/-! ## Claim C9 -/

/-- **C9.** For every existing booking and every status value of the
booking enum, a partial update carrying that status succeeds and the
stored booking afterwards has exactly that status: the update is a blind
merge with no state-machine guard (so e.g. `completed` back to `pending`
is accepted — see the witness). -/
theorem updateBooking_any_status
    (s : StoreState) (id : Nat) (p : BookingPatch) (b : Booking) (st : BookingStatus)
    (hb : getBooking s id = some b)
    (hps : p.status = some st) :
    ∃ s1, dbUpdateBooking s id p = some (b.apply p, s1) ∧
      getBooking s1 id = some (b.apply p) ∧
      (b.apply p).status = st := by
  unfold dbUpdateBooking
  rw [hb]
  dsimp only
  refine ⟨_, rfl, ?_, ?_⟩
  · exact find?_map_if Booking.id (fun w => w.apply p) id (fun _ => rfl) s.bookings b hb
  · simp [Booking.apply, hps]

/-- C9 witness booking: already `completed`. -/
def bC9 : Booking := { id := 1, vehicleId := 1, userId := 5, startTime := 0, endTime := 10, status := .completed }

/-- C9 witness store. -/
def sC9 : StoreState := { bookings := [bC9], nextBookingId := 2 }

/-- C9 witness patch: back to `pending`. -/
def pC9 : BookingPatch := { status := some .pending }

/-- Witness for C9: the `completed → pending` transition is accepted. -/
theorem updateBooking_any_status_witness :
    ∃ s1, dbUpdateBooking sC9 1 pC9 = some (bC9.apply pC9, s1) ∧
      getBooking s1 1 = some (bC9.apply pC9) ∧
      (bC9.apply pC9).status = .pending := by
  exact updateBooking_any_status sC9 1 pC9 bC9 .pending rfl rfl

/-! ## Claim C10 -/

/-- **C10 (amended).** The in-memory and database implementations agree —
whole result and vehicles table included — exactly on the guarded paths:
trip creation with status `in_progress`, and maintenance creation with
initial status not `completed`. On the other paths (`planned` trip,
initially-`completed` maintenance) they diverge: `MemStorage` still flips
an `available` vehicle while `DatabaseStorage` leaves it unchanged — see
the counterexample. -/
theorem mem_db_create_agree :
    (∀ (s : StoreState) (td : InsertTrip), td.status = .in_progress →
      memCreateTrip s td = dbCreateTrip s td) ∧
    (∀ (s : StoreState) (md : InsertMaintenance), md.status ≠ .completed →
      memCreateMaintenance s md = dbCreateMaintenance s md) := by
  constructor
  · intro s td h
    unfold memCreateTrip dbCreateTrip
    rw [if_pos (show (td.status == TripStatus.in_progress) = true by simp [h])]
  · intro s md h
    unfold memCreateMaintenance dbCreateMaintenance
    rw [if_pos (show (md.status != MaintStatus.completed) = true by simp [h])]

/-- C10 witness vehicle. -/
def vC10w : Vehicle := { id := 1 }

/-- C10 witness store. -/
def sC10w : StoreState := { vehicles := [vC10w] }

/-- C10 witness `in_progress` trip input. -/
def tdC10w : InsertTrip :=
  { vehicleId := 1, driverId := 2, startTime := 0, startOdometer := 10, status := .in_progress }

/-- C10 witness non-completed maintenance input. -/
def mdC10w : InsertMaintenance := { vehicleId := 1, date := 3, status := .pending }

/-- Witness for C10 (amended) on the two guarded paths. -/
theorem mem_db_create_agree_witness :
    memCreateTrip sC10w tdC10w = dbCreateTrip sC10w tdC10w ∧
    memCreateMaintenance sC10w mdC10w = dbCreateMaintenance sC10w mdC10w := by
  exact ⟨mem_db_create_agree.1 sC10w tdC10w rfl, mem_db_create_agree.2 sC10w mdC10w (by decide)⟩

/-- C10 counterexample vehicle (fresh copy for the diverging inputs). -/
def vC10 : Vehicle := { id := 1 }

/-- C10 counterexample store. -/
def sC10 : StoreState := { vehicles := [vC10] }

/-- C10 `planned` trip input. -/
def tdC10 : InsertTrip :=
  { vehicleId := 1, driverId := 2, startTime := 0, startOdometer := 10, status := .planned }

/-- C10 initially-`completed` maintenance input. -/
def mdC10 : InsertMaintenance := { vehicleId := 1, date := 3, status := .completed }

/-- **C10 counterexample.** On a `planned` trip the in-memory store flips
the available vehicle to `in_use` while the database store leaves it
`available`; on an initially-`completed` maintenance record the in-memory
store flips it to `maintenance` while the database store leaves it
`available` — the two implementations do not leave the vehicle with the
same status. -/
theorem mem_db_create_diverge :
    (memCreateTrip sC10 tdC10).2.vehicles.map Vehicle.status = [VStatus.in_use] ∧
    (dbCreateTrip sC10 tdC10).2.vehicles.map Vehicle.status = [VStatus.available] ∧
    (memCreateMaintenance sC10 mdC10).2.vehicles.map Vehicle.status = [VStatus.maintenance] ∧
    (dbCreateMaintenance sC10 mdC10).2.vehicles.map Vehicle.status = [VStatus.available] := by
  exact ⟨rfl, rfl, rfl, rfl⟩

end Fleet
